import Mathlib

/-!
Shallow embedding of `HealthCompanion.py`: a single-page Streamlit app with a
profile store, a conversation log, prompt builders, and three handlers
(meal plan, food scanner, AI-coach chat), plus the startup API-key check.

Machine integers are modelled over `ℕ` (the widget values are non-negative
bounded integers).  The BMI of line 94 is computed in Python binary64
floats: `roundToDouble` below rounds an exact rational to the nearest
double (ties to even), so the float data flow of line 94 is reproduced in
exact rational arithmetic.  Python's `round(x, 1)` performs correct decimal
rounding, half to even, of the double's exact value; `roundHalfEven` and
`round1` reproduce that.
-/

namespace HealthCompanion

/-- The session profile dictionary (`st.session_state.profile`, lines 62-69). -/
structure Profile where
  age : Nat
  weight : Nat
  height : Nat
  goal : String
  activity : String
deriving Repr, DecidableEq

/-- Defaults installed at session start (lines 63-69). -/
def defaultProfile : Profile :=
  { age := 25, weight := 70, height := 170, goal := "Fat loss", activity := "Moderate" }

/-- One transcript entry: (speaker label, message).  The code uses the literal
speaker labels "You" and "Coach" (lines 162 and 175). -/
abbrev ChatTurn := String × String

/-- The per-session state: `st.session_state.chat_history` and
`st.session_state.profile` (lines 59-69). -/
structure SessionState where
  chat_history : List ChatTurn
  profile : Profile
deriving Repr, DecidableEq

/-- State at session start: empty history, default profile. -/
def initialState : SessionState := { chat_history := [], profile := defaultProfile }

/-- A single-quote character (codepoint 39), used by Python's `dict` repr. -/
def sq : String := String.singleton (Char.ofNat 39)

/-- Wrap a string in single quotes, as Python's repr does for `str` values. -/
def quoted (s : String) : String := sq ++ s ++ sq

/-- Python's `str(dict)` for the profile dictionary, as interpolated by the
f-strings on lines 110 and 169: `{'age': 25, 'weight': 70, ...}`. -/
def profileRepr (p : Profile) : String :=
  "\x7b" ++ quoted "age" ++ ": " ++ toString p.age ++ ", "
    ++ quoted "weight" ++ ": " ++ toString p.weight ++ ", "
    ++ quoted "height" ++ ": " ++ toString p.height ++ ", "
    ++ quoted "goal" ++ ": " ++ quoted p.goal ++ ", "
    ++ quoted "activity" ++ ": " ++ quoted p.activity ++ "\x7d"

/-- `st.number_input(label, lo, hi, value)`: returns the stored default
`value` when the widget is untouched, and the entered value clamped into
`[lo, hi]` otherwise (the widget frontend never yields an out-of-range
number). -/
def number_input (lo hi value : Nat) (entered : Option Nat) : Nat :=
  match entered with
  | none => value
  | some v => max lo (min hi v)

/-- `st.selectbox(label, options, index)`: returns the option at the fixed
default `index` when untouched, otherwise the selected option. -/
def selectbox (options : List String) (index : Nat) (selected : Option Nat) : String :=
  options.getD (selected.getD index) ""

/-- Goal options (line 80). -/
def goalOptions : List String := ["Fat loss", "Muscle gain", "Maintenance"]

/-- Activity options (line 81). -/
def activityOptions : List String := ["Low", "Moderate", "High"]

/-- The store-level write of the "Update Profile" handler (lines 84-90):
`st.session_state.profile.update({...})` with all five keys — a wholesale
replacement, with no validation of any field. -/
def profileStoreUpdate (old candidate : Profile) : Profile :=
  { old with
    age := candidate.age, weight := candidate.weight, height := candidate.height,
    goal := candidate.goal, activity := candidate.activity }

/-- The user-event payload for one sidebar rerun: which widgets the user
touched this session (and to what), and whether "Update Profile" was
clicked. -/
structure SidebarInput where
  ageEntry : Option Nat
  weightEntry : Option Nat
  heightEntry : Option Nat
  goalSel : Option Nat
  activitySel : Option Nat
  updateClicked : Bool
deriving Repr, DecidableEq

/-- Round half to even, Python's `round` tie-breaking rule, computed on the
reduced numerator and denominator: `f` is the floor and `r` the remainder,
so `q = f + r/d` with `0 ≤ r < d`. -/
def roundHalfEven (q : ℚ) : ℤ :=
  let n := q.num
  let d := (q.den : ℤ)
  let f := Int.fdiv n d
  let r := n - f * d
  if 2 * r < d then f
  else if d < 2 * r then f + 1
  else if f % 2 = 0 then f else f + 1

/-- Python's `round(q, 1)` on exact rationals. -/
def round1 (q : ℚ) : ℚ := (roundHalfEven (q * 10) : ℚ) / 10

/-- Floor of log₂ on naturals, fuel-driven so it evaluates by structural
recursion (fuel 320 covers every value below 2^320, far beyond anything the
BMI arithmetic produces). -/
def natLog2Aux : Nat → Nat → Nat
  | 0, _ => 0
  | f + 1, n => if n ≤ 1 then 0 else natLog2Aux f (n / 2) + 1

/-- ⌊log₂ n⌋ for n ≥ 1. -/
def natLog2 (n : Nat) : Nat := natLog2Aux 320 n

/-- Smallest k with 2^k ≥ c. -/
def ceilLog2Nat (c : Nat) : Nat := if c ≤ 1 then 0 else natLog2 (c - 1) + 1

/-- ⌊log₂ q⌋ for a positive rational (0 for q ≤ 0): for q ≥ 1 it is
⌊log₂ ⌊q⌋⌋, and for 0 < q < 1 it is minus the least k with 2^k ≥ 1/q. -/
def ratFloorLog2 (q : ℚ) : ℤ :=
  if q.num ≤ 0 then 0
  else if q.den ≤ q.num.toNat then (natLog2 (q.num.toNat / q.den) : ℤ)
  else -(ceilLog2Nat ((q.den + q.num.toNat - 1) / q.num.toNat) : ℤ)

/-- 2^n for an integer exponent, as a rational. -/
def pow2z (n : ℤ) : ℚ :=
  match n with
  | .ofNat m => ((2 ^ m : ℕ) : ℚ)
  | .negSucc m => 1 / ((2 ^ (m + 1) : ℕ) : ℚ)

/-- Nearest IEEE-754 binary64 value to a positive rational, as the exact
rational the double represents: the 53-bit significand is the half-to-even
rounding of q·2^(52-e) at exponent e = ⌊log₂ q⌋. -/
def roundToDoublePos (q : ℚ) : ℚ :=
  ((roundHalfEven (q * pow2z (52 - ratFloorLog2 q)) : ℤ) : ℚ)
    * pow2z (ratFloorLog2 q - 52)

/-- Round a rational to the nearest binary64 value (ties to even).
Subnormal and overflow ranges are not distinguished: every value the BMI
arithmetic produces lies well inside the normal range. -/
def roundToDouble (q : ℚ) : ℚ :=
  if q.num < 0 then -(roundToDoublePos (-q))
  else if q.num = 0 then 0
  else roundToDoublePos q

/-- Line 94 in binary64: `weight / ((height/100)**2)` with every operation
correctly rounded (`**2` of a double is its correctly rounded square, the
same value as `t1*t1`); integer widget values (≤ 250) are exact doubles. -/
def floatBmi (w h : Nat) : ℚ :=
  let t1 := roundToDouble ((h : ℚ) / 100)
  roundToDouble ((w : ℚ) / roundToDouble (t1 * t1))

/-- Everything the sidebar pass produces: the session state afterwards, the
three number-widget values, the two selectbox values, and the displayed BMI
metric. -/
structure SidebarRender where
  state : SessionState
  ageW : Nat
  weightW : Nat
  heightW : Nat
  goalW : String
  activityW : String
  bmiDisplayed : ℚ
deriving Repr, DecidableEq

/-- One pass of the sidebar (lines 73-95): read the widgets, optionally run
the "Update Profile" handler (wholesale `dict.update` of all five keys,
lines 84-90), then compute and display BMI from the widget values
(`bmi = weight / ((height/100)**2)`, `st.metric(..., round(bmi, 1))`,
lines 94-95). -/
def renderSidebar (s : SessionState) (inp : SidebarInput) : SidebarRender :=
  let age := number_input 10 100 s.profile.age inp.ageEntry
  let weight := number_input 30 250 s.profile.weight inp.weightEntry
  let height := number_input 100 250 s.profile.height inp.heightEntry
  let goal := selectbox goalOptions 0 inp.goalSel
  let activity := selectbox activityOptions 1 inp.activitySel
  let candidate : Profile :=
    { age := age, weight := weight, height := height, goal := goal, activity := activity }
  let s1 :=
    if inp.updateClicked then { s with profile := profileStoreUpdate s.profile candidate }
    else s
  let bmi : ℚ := floatBmi weight height
  { state := s1, ageW := age, weightW := weight, heightW := height,
    goalW := goal, activityW := activity, bmiDisplayed := round1 bmi }

/-- Outcome of one model call: `response.text` on success, or the exception
message caught by the `except` clause. -/
inductive ModelResult where
  | ok (text : String)
  | llmError (msg : String)
deriving Repr, DecidableEq

/-- Result of one handler pass: state afterwards, markdown rendered (if any),
and the `st.error` message shown (if any). -/
structure StepOutcome where
  state : SessionState
  shown : Option String
  errorMsg : Option String
deriving Repr, DecidableEq

/-- The meal-plan f-string text before the interpolated profile (lines
108-110). -/
def promptHeader : String :=
  "\n            Create a high-quality 7-day meal plan.\n            User Profile: "

/-- The meal-plan f-string text after the interpolated profile (lines
110-118). -/
def promptFooter : String :=
  "\n\n            Please provide:\n            - Daily calorie targets\n            - Macronutrient breakdown (P/C/F)\n            - Specific meals for Breakfast, Lunch, Dinner, and Snacks\n            - A consolidated grocery list\n            - Quick prep tips for the week\n            "

/-- The meal-plan prompt f-string (lines 108-118), with the profile dict
interpolated verbatim. -/
def mealPlanPrompt (p : Profile) : String :=
  promptHeader ++ profileRepr p ++ promptFooter

/-- The "Create 7-Day Plan" handler (lines 106-123): build the prompt, call
the model, render `response.text` on success or `st.error(f"Error generating
plan: {e}")` on failure.  It touches neither the profile nor the chat
history. -/
def mealPlanStep (s : SessionState) (result : ModelResult) : StepOutcome :=
  match result with
  | .ok text => { state := s, shown := some text, errorMsg := none }
  | .llmError e => { state := s, shown := none, errorMsg := some ("Error generating plan: " ++ e) }

/-- `profile_context` (line 169): the profile dict repr with a trailing
period and space. -/
def profile_context (p : Profile) : String := "User Profile: " ++ profileRepr p ++ ". "

/-- `full_prompt` (line 170): `f"{profile_context}\nUser Question: {user_input}"`. -/
def full_prompt (p : Profile) (user_input : String) : String :=
  profile_context p ++ "\nUser Question: " ++ user_input

/-- The prompt the chat handler sends, as a function of the whole session
state: it reads only `st.session_state.profile`, never `chat_history`. -/
def chatPrompt (s : SessionState) (user_input : String) : String :=
  full_prompt s.profile user_input

/-- The AI-coach chat handler (lines 160-177): append `("You", user_input)`
to the history, build `full_prompt`, call the model; on success render the
response and append `("Coach", response.text)`; on failure show
`st.error(f"Error: {e}")` — the user turn appended before the call is kept
and nothing marks it failed. -/
def chatStep (s : SessionState) (user_input : String) (result : ModelResult) : StepOutcome :=
  let s1 := { s with chat_history := s.chat_history ++ [("You", user_input)] }
  match result with
  | .ok text =>
      { state := { s1 with chat_history := s1.chat_history ++ [("Coach", text)] },
        shown := some text, errorMsg := none }
  | .llmError e => { state := s1, shown := none, errorMsg := some ("Error: " ++ e) }

/-- Outcome of the startup section (lines 17-27): either the script is halted
by `st.stop()` after `st.error(...)`, or it proceeds with the key
configured. -/
inductive StartupResult where
  | halted (errorShown : String)
  | running (configuredKey : String)
deriving Repr, DecidableEq

/-- The startup key check (lines 17-23): `os.getenv` yields `none` when the
variable is absent; `if not GOOGLE_API_KEY` is also taken for the empty
string (falsy in Python).  On the error path `st.stop()` halts the script,
so `genai.configure` and everything after never run. -/
def startup (key : Option String) : StartupResult :=
  match key with
  | none => .halted "API Key not found! Please check your .env file."
  | some k =>
      if k = "" then .halted "API Key not found! Please check your .env file."
      else .running k

/-- `t` occurs as a contiguous substring of `s`. -/
def containsSubstring (s t : String) : Prop := ∃ a b : String, s = a ++ t ++ b

/-- A profile whose numeric fields are within the widget bounds of
lines 76-78. -/
def profileInBounds (p : Profile) : Prop :=
  10 ≤ p.age ∧ p.age ≤ 100 ∧ 30 ≤ p.weight ∧ p.weight ≤ 250 ∧
    100 ≤ p.height ∧ p.height ≤ 250

/-! ## Theorems -/

attribute [local semireducible] Rat.mul Rat.inv Rat.add Rat.sub Rat.ofScientific

instance (p : Profile) : Decidable (profileInBounds p) :=
  decidable_of_iff
    (10 ≤ p.age ∧ p.age ≤ 100 ∧ 30 ≤ p.weight ∧ p.weight ≤ 250 ∧
      100 ≤ p.height ∧ p.height ≤ 250) Iff.rfl

/-- A value produced by a bounded `number_input` widget lies within the
widget's bounds, provided its stored default does. -/
theorem number_input_bounds (lo hi value : Nat) (e : Option Nat)
    (h1 : lo ≤ value) (h2 : value ≤ hi) :
    lo ≤ number_input lo hi value e ∧ number_input lo hi value e ≤ hi := by
  cases e <;> simp only [number_input] <;> omega

/-- Claim C6: on a successful chat submission the handler appends exactly
`("You", message)` then `("Coach", response)` at the end of the existing
history, preserving insertion order ("You" is the code's label for the
spec's User speaker, line 162). -/
theorem chat_success_appends_user_then_coach (s : SessionState) (m r : String) :
    (chatStep s m (.ok r)).state.chat_history
      = s.chat_history ++ [("You", m), ("Coach", r)] := by
  simp [chatStep, List.append_assoc]

/-- Claim C1 (failing evaluation): a chat submission whose model call raises
leaves the conversation log ending in an orphaned `("You", _)` turn — the
session state is not restored and no failure marker is appended; only a
transient `st.error` box is shown. -/
theorem chat_failure_orphans_user_turn :
    (chatStep initialState "What should I eat?" (.llmError "network unreachable")).state.chat_history
      = [("You", "What should I eat?")]
    ∧ (chatStep initialState "What should I eat?" (.llmError "network unreachable")).state
        ≠ initialState
    ∧ (chatStep initialState "What should I eat?" (.llmError "network unreachable")).errorMsg
        = some "Error: network unreachable" := by
  exact ⟨rfl, by decide, rfl⟩

/-- Claim C4: the chat prompt is the profile context prepended to the
current user message only; it is a function of the profile alone, so two
session states with the same profile and arbitrarily different conversation
histories produce the same prompt. -/
theorem chatPrompt_ignores_history (s t : SessionState) (m : String)
    (h : s.profile = t.profile) :
    chatPrompt s m = profile_context s.profile ++ "\nUser Question: " ++ m
    ∧ chatPrompt s m = chatPrompt t m :=
  ⟨rfl, by simp only [chatPrompt, full_prompt, h]⟩

/-- Witness for `chatPrompt_ignores_history`: the empty-history initial
state and a two-turn state with the same profile yield the same prompt. -/
theorem chatPrompt_ignores_history_witness :
    chatPrompt initialState "What should I eat?"
      = profile_context initialState.profile ++ "\nUser Question: " ++ "What should I eat?"
    ∧ chatPrompt initialState "What should I eat?"
      = chatPrompt { chat_history := [("You", "hi"), ("Coach", "hello")],
                     profile := defaultProfile } "What should I eat?" :=
  chatPrompt_ignores_history initialState
    { chat_history := [("You", "hi"), ("Coach", "hello")], profile := defaultProfile }
    "What should I eat?" rfl

/-- Claim C7: a model failure during "Create 7-Day Plan" shows an inline
error message and leaves the whole session state — profile store and
conversation log — exactly as it was. -/
theorem meal_plan_failure_frame (s : SessionState) (e : String) :
    (mealPlanStep s (.llmError e)).state = s
    ∧ (mealPlanStep s (.llmError e)).state.profile = s.profile
    ∧ (mealPlanStep s (.llmError e)).state.chat_history = s.chat_history
    ∧ (mealPlanStep s (.llmError e)).errorMsg = some ("Error generating plan: " ++ e) :=
  ⟨rfl, rfl, rfl, rfl⟩

/-- Claim C8: the meal-plan prompt embeds the profile's age, weight, height,
goal and activity level as literal substrings (they are interpolated through
the Python dict repr on line 110). -/
theorem mealPlanPrompt_contains_profile_fields (p : Profile) :
    containsSubstring (mealPlanPrompt p) (toString p.age)
    ∧ containsSubstring (mealPlanPrompt p) (toString p.weight)
    ∧ containsSubstring (mealPlanPrompt p) (toString p.height)
    ∧ containsSubstring (mealPlanPrompt p) p.goal
    ∧ containsSubstring (mealPlanPrompt p) p.activity := by
  refine ⟨⟨promptHeader ++ "\x7b" ++ quoted "age" ++ ": ",
      ", " ++ quoted "weight" ++ ": " ++ toString p.weight ++ ", "
        ++ quoted "height" ++ ": " ++ toString p.height ++ ", "
        ++ quoted "goal" ++ ": " ++ quoted p.goal ++ ", "
        ++ quoted "activity" ++ ": " ++ quoted p.activity ++ "\x7d" ++ promptFooter, ?_⟩,
    ⟨promptHeader ++ "\x7b" ++ quoted "age" ++ ": " ++ toString p.age ++ ", "
        ++ quoted "weight" ++ ": ",
      ", " ++ quoted "height" ++ ": " ++ toString p.height ++ ", "
        ++ quoted "goal" ++ ": " ++ quoted p.goal ++ ", "
        ++ quoted "activity" ++ ": " ++ quoted p.activity ++ "\x7d" ++ promptFooter, ?_⟩,
    ⟨promptHeader ++ "\x7b" ++ quoted "age" ++ ": " ++ toString p.age ++ ", "
        ++ quoted "weight" ++ ": " ++ toString p.weight ++ ", "
        ++ quoted "height" ++ ": ",
      ", " ++ quoted "goal" ++ ": " ++ quoted p.goal ++ ", "
        ++ quoted "activity" ++ ": " ++ quoted p.activity ++ "\x7d" ++ promptFooter, ?_⟩,
    ⟨promptHeader ++ "\x7b" ++ quoted "age" ++ ": " ++ toString p.age ++ ", "
        ++ quoted "weight" ++ ": " ++ toString p.weight ++ ", "
        ++ quoted "height" ++ ": " ++ toString p.height ++ ", "
        ++ quoted "goal" ++ ": " ++ sq,
      sq ++ ", " ++ quoted "activity" ++ ": " ++ quoted p.activity ++ "\x7d" ++ promptFooter, ?_⟩,
    ⟨promptHeader ++ "\x7b" ++ quoted "age" ++ ": " ++ toString p.age ++ ", "
        ++ quoted "weight" ++ ": " ++ toString p.weight ++ ", "
        ++ quoted "height" ++ ": " ++ toString p.height ++ ", "
        ++ quoted "goal" ++ ": " ++ quoted p.goal ++ ", "
        ++ quoted "activity" ++ ": " ++ sq,
      sq ++ "\x7d" ++ promptFooter, ?_⟩⟩
    <;> simp [mealPlanPrompt, profileRepr, quoted, String.append_assoc]

/-- Claim C9: with the API key absent (`os.getenv` returning `None`, or set
but empty — both falsy in Python), startup halts at `st.stop()` after the
`st.error` message, so no model is configured and no UI flow runs; with a
non-empty key, startup proceeds with that key configured. -/
theorem missing_api_key_refuses_to_start :
    startup none = .halted "API Key not found! Please check your .env file."
    ∧ startup (some "") = .halted "API Key not found! Please check your .env file."
    ∧ ∀ k : String, k ≠ "" → startup (some k) = .running k := by
  refine ⟨rfl, rfl, fun k hk => ?_⟩
  simp [startup, hk]

/-- Witness for the startup theorem at a concrete non-empty key. -/
theorem missing_api_key_refuses_to_start_witness :
    startup (some "AIzaSampleKey") = .running "AIzaSampleKey" :=
  missing_api_key_refuses_to_start.2.2 "AIzaSampleKey" (by decide)

/-- Claim C10: on a rerun where neither selectbox was re-selected, the Goal
and Activity widgets take their fixed defaults (`index=0` → "Fat loss",
`index=1` → "Moderate"), and pressing "Update Profile" then overwrites the
stored goal and activity with those defaults regardless of what the stored
profile held. -/
theorem untouched_selectboxes_overwrite_on_update (s : SessionState) :
    (renderSidebar s ⟨none, none, none, none, none, true⟩).goalW = "Fat loss"
    ∧ (renderSidebar s ⟨none, none, none, none, none, true⟩).activityW = "Moderate"
    ∧ (renderSidebar s ⟨none, none, none, none, none, true⟩).state.profile
        = { age := s.profile.age, weight := s.profile.weight, height := s.profile.height,
            goal := "Fat loss", activity := "Moderate" } :=
  ⟨rfl, rfl, rfl⟩

/-- Claim C5 counterexample: at the in-bounds pair weight 48 / height 160
the program's binary64 evaluation displays 18.7 (`1.6**2` rounds up to
2.5600000000000005 and `48/2.5600000000000005` down to 18.749999999999996,
below the tie), while the claimed exact formula `weight/(height/100)²`
yields exactly 18.75, which rounds to 18.8. -/
theorem bmi_exact_formula_counterexample :
    (renderSidebar initialState ⟨none, some 48, some 160, none, none, false⟩).bmiDisplayed = 18.7
    ∧ round1 ((48 : ℚ) / (((160 : ℚ) / 100) ^ 2)) = 18.8
    ∧ (18.7 : ℚ) ≠ (18.8 : ℚ) :=
  ⟨by decide, by decide, by decide⟩

/-- Claim C5 amended: for widget weight/height values within bounds the
displayed BMI is the binary64 evaluation of `weight / ((height/100)**2)`
(each operation correctly rounded) rounded to one decimal half-to-even;
this differs from the exact formula where the float rounding crosses a
decimal tie (e.g. 48/160), and weight 70 with height 170 still displays
24.2. -/
theorem displayed_bmi_binary64_formula (w h : Nat) (s : SessionState) (inp : SidebarInput)
    (hw : inp.weightEntry = some w) (hh : inp.heightEntry = some h)
    (hwl : 30 ≤ w) (hwu : w ≤ 250) (hhl : 100 ≤ h) (hhu : h ≤ 250) :
    (renderSidebar s inp).bmiDisplayed = round1 (floatBmi w h)
    ∧ round1 (floatBmi 70 170) = 24.2 := by
  constructor
  · simp [renderSidebar, number_input, hw, hh,
      Nat.min_eq_right hwu, Nat.max_eq_right hwl, Nat.min_eq_right hhu, Nat.max_eq_right hhl]
  · decide

/-- Witness for the binary64 BMI formula at the default 70 kg / 170 cm
profile. -/
theorem displayed_bmi_binary64_formula_witness :
    (renderSidebar initialState ⟨none, some 70, some 170, none, none, false⟩).bmiDisplayed
      = round1 (floatBmi 70 170)
    ∧ round1 (floatBmi 70 170) = 24.2 :=
  displayed_bmi_binary64_formula 70 170 initialState ⟨none, some 70, some 170, none, none, false⟩
    rfl rfl (by decide) (by decide) (by decide) (by decide)

/-- Claim C2 counterexample: the store-level update is an unconditional
replacement — fed a candidate with age 150 it stores age 150 and the prior
profile does not survive; nothing in the handler rejects the candidate. -/
theorem profile_update_accepts_out_of_bounds :
    profileStoreUpdate defaultProfile
        { age := 150, weight := 70, height := 170, goal := "Fat loss", activity := "Moderate" }
      ≠ defaultProfile
    ∧ (profileStoreUpdate defaultProfile
        { age := 150, weight := 70, height := 170, goal := "Fat loss", activity := "Moderate" }).age
      = 150 :=
  ⟨by decide, rfl⟩

/-- Claim C2 amended: validation lives only at the widget boundary — the
update handler stores whichever candidate it is given, but the number
widgets clamp every entry into its bounds, so a profile updated through the
sidebar always keeps its numeric fields within bounds. -/
theorem sidebar_update_stays_in_bounds (s : SessionState) (inp : SidebarInput)
    (hs : profileInBounds s.profile) :
    profileInBounds (renderSidebar s inp).state.profile := by
  obtain ⟨h1, h2, h3, h4, h5, h6⟩ := hs
  have ha := number_input_bounds 10 100 s.profile.age inp.ageEntry h1 h2
  have hw := number_input_bounds 30 250 s.profile.weight inp.weightEntry h3 h4
  have hh := number_input_bounds 100 250 s.profile.height inp.heightEntry h5 h6
  cases hb : inp.updateClicked
  · simpa [renderSidebar, hb, profileInBounds] using ⟨h1, h2, h3, h4, h5, h6⟩
  · simpa [renderSidebar, hb, profileStoreUpdate, profileInBounds] using
      ⟨ha.1, ha.2, hw.1, hw.2, hh.1, hh.2⟩

/-- Witness for the widget clamp: out-of-bounds entries (age 150, weight 7,
height 999) still yield an in-bounds stored profile after "Update
Profile". -/
theorem sidebar_update_stays_in_bounds_witness :
    profileInBounds initialState.profile
    ∧ profileInBounds
        (renderSidebar initialState ⟨some 150, some 7, some 999, some 2, some 0, true⟩).state.profile :=
  ⟨by decide,
    sidebar_update_stays_in_bounds initialState ⟨some 150, some 7, some 999, some 2, some 0, true⟩
      (by decide)⟩

/-- Claim C3 counterexample: the BMI on line 94 is computed from the live
widget values, not the profile store — entering weight 100 without pressing
"Update Profile" leaves the stored profile at the default yet displays the
BMI of weight 100. -/
theorem bmi_not_recomputed_from_store :
    (renderSidebar initialState ⟨none, some 100, none, none, none, false⟩).state.profile
      = defaultProfile
    ∧ (renderSidebar initialState ⟨none, some 100, none, none, none, false⟩).bmiDisplayed
      ≠ round1 (floatBmi defaultProfile.weight defaultProfile.height) :=
  ⟨rfl, by decide⟩

/-- Claim C3 amended: the displayed BMI is recomputed on every render from
the current weight/height widget values; those widgets default to the
stored profile's values, so whenever they are untouched the displayed BMI
coincides with the stored profile's BMI. -/
theorem bmi_recomputed_each_render (s : SessionState) (inp : SidebarInput)
    (hw : inp.weightEntry = none) (hh : inp.heightEntry = none) :
    (renderSidebar s inp).bmiDisplayed
      = round1 (floatBmi s.profile.weight s.profile.height)
    ∧ (renderSidebar s inp).bmiDisplayed
      = round1 (floatBmi (renderSidebar s inp).weightW (renderSidebar s inp).heightW) := by
  constructor
  · simp [renderSidebar, number_input, hw, hh]
  · rfl

/-- Witness for BMI recomputation with untouched weight/height widgets (the
age widget edited, which must not matter). -/
theorem bmi_recomputed_each_render_witness :
    (renderSidebar initialState ⟨some 30, none, none, none, none, false⟩).bmiDisplayed
      = round1 (floatBmi initialState.profile.weight initialState.profile.height)
    ∧ (renderSidebar initialState ⟨some 30, none, none, none, none, false⟩).bmiDisplayed
      = round1 (floatBmi (renderSidebar initialState ⟨some 30, none, none, none, none, false⟩).weightW
          (renderSidebar initialState ⟨some 30, none, none, none, none, false⟩).heightW) :=
  bmi_recomputed_each_render initialState ⟨some 30, none, none, none, none, false⟩ rfl rfl

end HealthCompanion
